import Mathlib

/-!
# Verification of the stock-dashboard chart core

Shallow embedding of the chart-dataset derivation (`chartData` in the
`StockChart` component, `src/unnamed/part_000`), of the chart `options`
zoom/axis limits from the same component, of the renderer's empty-state
guard, and of the series-alignment core of `fetchStockData`
(`src/app/components/TickerSearch.tsx`, yahooFinance section).

Modelling conventions:
* A calendar-day string `point.date` is everywhere converted by the source
  through `new Date(s).getTime()` before use; the embedding identifies each
  date with its millisecond timestamp (an integer), since that conversion is
  injective and monotone on valid ISO dates.  The `fetchStockData` alignment
  compares the raw ISO strings lexicographically, so there dates stay
  `String`s.
* JavaScript numbers are modelled as exact rationals, except where the source
  can divide by zero: there the IEEE-754 outcomes `NaN` / `±Infinity` are
  modelled explicitly by the `JSNum` type, because the code's
  `point.y !== null` filter distinguishes `null` from non-finite numbers.
* `null` becomes `Option.none`.
-/

namespace StockChart

/-- `interface StockDataPoint { date: string; close: number | null }`,
with the date identified with its parsed timestamp. -/
structure StockDataPoint where
  date : ℤ
  close : Option ℚ
deriving DecidableEq, Repr

/-- A JavaScript number as produced by the `y` computation: an exact finite
value, or one of the non-finite IEEE-754 outcomes of dividing by zero. -/
inductive JSNum where
  | fin (q : ℚ)
  | nan
  | posInf
  | negInf
deriving DecidableEq, Repr

/-- The JavaScript value of `((c - b) / b) * 100` for finite `c`, `b`:
exact when `b ≠ 0`; when `b = 0` the division yields `NaN` (for `c = 0`)
or `±Infinity` (sign of `c`), and multiplying by 100 preserves these. -/
def pctChange (c b : ℚ) : JSNum :=
  if b = 0 then
    if c = 0 then .nan else if 0 < c then .posInf else .negInf
  else
    .fin ((c - b) / b * 100)

/-- `type ChartPoint = { x: number; y: number | null; originalY: number | null }`. -/
structure ChartPoint where
  x : ℤ
  y : Option JSNum
  originalY : Option ℚ
deriving DecidableEq, Repr

/-- One element of `chartData.datasets` (the fields the properties are
about: `label`, `data`, `yAxisID`). -/
structure ChartDataset where
  label : Option String
  data : List ChartPoint
  yAxisID : String
deriving DecidableEq, Repr

/-- The value returned by the `chartData` memo. -/
structure ChartDataT where
  labels : List ℤ
  datasets : List ChartDataset
deriving DecidableEq, Repr

/-- The `validData` filter: keep points with `close !== null` whose
timestamp lies within `[startTimestamp, endTimestamp]`. -/
def validData (startT endT : ℤ) (stockData : List StockDataPoint) :
    List StockDataPoint :=
  stockData.filter fun p =>
    decide (p.close ≠ none ∧ startT ≤ p.date ∧ p.date ≤ endT)

/-- The body of `validData.map(point => ({ x, y, originalY }))`:
`y` is `point.close` itself for the exchange-rate series, otherwise
`((point.close - baseValue) / baseValue) * 100`, and `null` when
`point.close` is `null`. -/
def mkPoint (isExchangeRate : Bool) (baseValue : ℚ) (p : StockDataPoint) :
    ChartPoint where
  x := p.date
  y := match p.close with
    | some c => some (if isExchangeRate then .fin c else pctChange c baseValue)
    | none => none
  originalY := p.close

/-- The dataset built for `stockData` at position `index` inside
`data.map((stockData, index) => ...)`: the symbol is `symbols[index]`
(absent when out of range), `isExchangeRate` tests it against
`'USDJPY=X'`, `baseValue` is `1` for the exchange rate and otherwise
`firstValidPoint?.close ?? 0`, and the mapped points are filtered to
those with `y !== null`. -/
def mkDataset (symbols : List String) (startT endT : ℤ) (index : ℕ)
    (stockData : List StockDataPoint) : ChartDataset :=
  let symbol := symbols[index]?
  let isExchangeRate : Bool := decide (symbol = some "USDJPY=X")
  let valid := validData startT endT stockData
  let firstValidPoint := valid.head?
  let baseValue : ℚ :=
    if isExchangeRate then 1 else ((firstValidPoint.bind (·.close)).getD 0)
  { label := symbol
    data := (valid.map (mkPoint isExchangeRate baseValue)).filter
      fun pt => decide (pt.y ≠ none)
    yAxisID := if isExchangeRate then "y-exchange" else "y-percent" }

/-- `data.map((stockData, index) => ...)` with the running index made
explicit. -/
def chartDatasets (symbols : List String) (startT endT : ℤ) :
    ℕ → List (List StockDataPoint) → List ChartDataset
  | _, [] => []
  | i, sd :: rest =>
      mkDataset symbols startT endT i sd ::
        chartDatasets symbols startT endT (i + 1) rest

/-- The `chartData` memo: `{ labels: [], datasets: [] }` when `data` or
`symbols` is empty, otherwise one dataset per raw series. -/
def chartData (data : List (List StockDataPoint)) (symbols : List String)
    (startT endT : ℤ) : ChartDataT :=
  if data = [] ∨ symbols = [] then { labels := [], datasets := [] }
  else { labels := [], datasets := chartDatasets symbols startT endT 0 data }

/-- The renderer's pre-chart guard
`if (!data || data.length === 0 || !symbols || symbols.length === 0)
 return <div>No data available to display</div>`:
the empty-state message is shown exactly when the raw `data` or `symbols`
array is empty. -/
def showsNoData (data : List (List StockDataPoint))
    (symbols : List String) : Bool :=
  data.isEmpty || symbols.isEmpty

/-- The `plugins.zoom.limits.x` object of the chart `options`. -/
structure ZoomLimitsX where
  min : ℤ
  max : ℤ
  minRange : ℤ
deriving DecidableEq, Repr

/-- The `scales.x` domain of the chart `options` (its `min`/`max`). -/
structure XScale where
  min : ℤ
  max : ℤ
deriving DecidableEq, Repr

/-- The option fields the zoom/axis properties are about. -/
structure OptionsT where
  zoomLimitsX : ZoomLimitsX
  xScale : XScale
deriving DecidableEq, Repr

/-- The `options` memo's axis/zoom configuration: both the zoom limits and
the x-scale bounds are `new Date(startDate).getTime()` /
`new Date(endDate).getTime()`, and `minRange` is `86400000`. -/
def options (startT endT : ℤ) : OptionsT where
  zoomLimitsX := { min := startT, max := endT, minRange := 86400000 }
  xScale := { min := startT, max := endT }

/-- Modelled from the spec: the `chartjs-plugin-zoom` limit enforcement is
not part of this repository; per the spec, a requested x-range is clamped so
that its span is at least `minRange`, at most the full window, and the
range lies within `[min, max]`. -/
def clampZoom (lim : ZoomLimitsX) (a b : ℤ) : ℤ × ℤ :=
  let span := min (max (b - a) lim.minRange) (lim.max - lim.min)
  let lo := min (max a lim.min) (lim.max - span)
  (lo, lo + span)

end StockChart

namespace yahooFinance

/-- `interface StockDataPoint { date: string; close: number | null }` as
produced by `fetchSingleStockData`: the ISO calendar-day string and the
(possibly null) close. -/
structure StockDataPoint where
  date : String
  close : Option ℚ
deriving DecidableEq, Repr

/-- The sorted union of dates:
`const allDates = new Set(...); Array.from(allDates).sort()`.
The JS result is the duplicate-free list of all dates in lexicographic
order; on a duplicate-free list any sorted permutation is unique, so it is
embedded as `insertionSort` of `dedup`. -/
def sortedAllDates (results : List (List StockDataPoint)) : List String :=
  ((results.flatMap fun d => d.map (·.date)).dedup).insertionSort (· ≤ ·)

/-- `new Map(data.map(point => [point.date, point.close])).get(date) ?? null`:
a JS `Map` keeps the last entry per key, and both an absent key and a stored
`null` give `null`. -/
def dataMapGet (data : List StockDataPoint) (date : String) : Option ℚ :=
  match data.reverse.find? (fun p => p.date == date) with
  | some p => p.close
  | none => none

/-- `sortedDates.map(date => ({ date, close: dataMap.get(date) ?? null }))`. -/
def alignSeries (sortedDates : List String) (data : List StockDataPoint) :
    List StockDataPoint :=
  sortedDates.map fun date => { date := date, close := dataMapGet data date }

/-- The pure core of `fetchStockData`: the per-symbol fetch results (one
list per symbol, in symbol order, as delivered by
`Promise.all(symbols.map(fetchSingleStockData))`) are aligned onto the
sorted union of their dates. -/
def fetchStockDataAlign (results : List (List StockDataPoint)) :
    List (List StockDataPoint) :=
  results.map (alignSeries (sortedAllDates results))

/-- `fetchStockData` with the network fetch abstracted as a function from
symbol to its fetched series. -/
def fetchStockData (fetchSingle : String → List StockDataPoint)
    (symbols : List String) : List (List StockDataPoint) :=
  fetchStockDataAlign (symbols.map fetchSingle)

end yahooFinance

/-! ## Supporting lemmas -/

namespace StockChart

lemma mem_validData {st en : ℤ} {sd : List StockDataPoint} {p : StockDataPoint} :
    p ∈ validData st en sd ↔
      p ∈ sd ∧ p.close ≠ none ∧ st ≤ p.date ∧ p.date ≤ en := by
  simp [validData, List.mem_filter]

lemma mkPoint_y_eq {e : Bool} {b : ℚ} {p : StockDataPoint} {c : ℚ}
    (hc : p.close = some c) :
    (mkPoint e b p).y = some (if e then .fin c else pctChange c b) := by
  simp [mkPoint, hc]

lemma filter_y_map_mkPoint (e : Bool) (b : ℚ) (l : List StockDataPoint)
    (h : ∀ p ∈ l, p.close ≠ none) :
    (l.map (mkPoint e b)).filter (fun pt => decide (pt.y ≠ none)) =
      l.map (mkPoint e b) := by
  apply List.filter_eq_self.mpr
  intro pt hpt
  obtain ⟨p, hp, rfl⟩ := List.mem_map.mp hpt
  obtain ⟨c, hc⟩ := Option.ne_none_iff_exists'.mp (h p hp)
  simp [mkPoint_y_eq hc]

lemma mkDataset_data (symbols : List String) (st en : ℤ) (i : ℕ)
    (sd : List StockDataPoint) :
    (mkDataset symbols st en i sd).data =
      (validData st en sd).map
        (mkPoint (decide (symbols[i]? = some "USDJPY=X"))
          (if symbols[i]? = some "USDJPY=X" then 1
            else (((validData st en sd).head?.bind (·.close)).getD 0))) := by
  simp only [mkDataset]
  rw [filter_y_map_mkPoint]
  · congr 1
    split <;> simp_all
  · intro p hp
    exact (mem_validData.mp hp).2.1

lemma mkDataset_yAxisID (symbols : List String) (st en : ℤ) (i : ℕ)
    (sd : List StockDataPoint) :
    (mkDataset symbols st en i sd).yAxisID =
      if symbols[i]? = some "USDJPY=X" then "y-exchange" else "y-percent" := by
  simp only [mkDataset]
  split <;> simp_all

lemma chartDatasets_getElem? (symbols : List String) (st en : ℤ)
    (i j : ℕ) (data : List (List StockDataPoint)) :
    (chartDatasets symbols st en i data)[j]? =
      (data[j]?).map (mkDataset symbols st en (i + j)) := by
  induction data generalizing i j with
  | nil => simp [chartDatasets]
  | cons sd rest ih =>
    cases j with
    | zero => simp [chartDatasets]
    | succ j =>
      have : i + (j + 1) = (i + 1) + j := by omega
      simp [chartDatasets, ih, this]

lemma chartDatasets_length (symbols : List String) (st en : ℤ)
    (i : ℕ) (data : List (List StockDataPoint)) :
    (chartDatasets symbols st en i data).length = data.length := by
  induction data generalizing i with
  | nil => rfl
  | cons sd rest ih => simp [chartDatasets, ih]

lemma chartData_datasets_getElem? {data : List (List StockDataPoint)}
    {symbols : List String} {st en : ℤ} (j : ℕ)
    (h1 : data ≠ []) (h2 : symbols ≠ []) :
    (chartData data symbols st en).datasets[j]? =
      (data[j]?).map (mkDataset symbols st en j) := by
  have : ¬(data = [] ∨ symbols = []) := by simp [h1, h2]
  simp [chartData, this, chartDatasets_getElem?]

lemma ne_nil_of_getElem?_eq_some {α : Type} {l : List α} {j : ℕ} {a : α}
    (h : l[j]? = some a) : l ≠ [] := by
  rintro rfl
  simp at h

/-! ## Claim theorems -/

/-- C1: for every non-passthrough raw series whose first in-window present
price `b` is non-zero, every in-window present price `c` of that series
yields a normalized point plotted at `(c - b) / b * 100` (exactly, in the
rational model). -/
theorem chartData_nonpassthrough_percent
    (data : List (List StockDataPoint)) (symbols : List String)
    (st en : ℤ) (j : ℕ) (sd : List StockDataPoint)
    (p0 : StockDataPoint) (b : ℚ)
    (hj : data[j]? = some sd)
    (hs : symbols ≠ [])
    (hsym : symbols[j]? ≠ some "USDJPY=X")
    (h0 : (validData st en sd).head? = some p0)
    (hb : p0.close = some b) (hbne : b ≠ 0) :
    ∃ ds, (chartData data symbols st en).datasets[j]? = some ds ∧
      ∀ p ∈ validData st en sd, ∀ c : ℚ, p.close = some c →
        ({ x := p.date, y := some (.fin ((c - b) / b * 100)),
           originalY := some c } : ChartPoint) ∈ ds.data := by
  refine ⟨mkDataset symbols st en j sd, ?_, ?_⟩
  · rw [chartData_datasets_getElem? j (ne_nil_of_getElem?_eq_some hj) hs, hj]
    rfl
  · intro p hp c hc
    rw [mkDataset_data]
    have hbase :
        (if symbols[j]? = some "USDJPY=X" then (1 : ℚ)
          else (((validData st en sd).head?.bind (·.close)).getD 0)) = b := by
      rw [if_neg hsym, h0]
      simp [hb]
    rw [hbase]
    have hmk : mkPoint (decide (symbols[j]? = some "USDJPY=X")) b p =
        { x := p.date, y := some (.fin ((c - b) / b * 100)),
          originalY := some c } := by
      simp only [mkPoint, hc, decide_eq_true_eq]
      rw [if_neg hsym]
      simp [pctChange, hbne]
    exact hmk ▸ List.mem_map_of_mem _ hp

/-- C1 witness: series `[(0, 100), (1, 110)]` over window `[0, 1]`,
baseline `100`, price `110` normalizes to `(110 - 100) / 100 * 100`. -/
theorem chartData_nonpassthrough_percent_witness :
    ∃ ds, (chartData [[⟨0, some 100⟩, ⟨1, some 110⟩]] ["ABC"] 0 1).datasets[0]? =
        some ds ∧
      ({ x := 1, y := some (.fin ((110 - 100) / 100 * 100)),
         originalY := some 110 } : ChartPoint) ∈ ds.data := by
  obtain ⟨ds, hds, hmem⟩ :=
    chartData_nonpassthrough_percent
      [[⟨0, some 100⟩, ⟨1, some 110⟩]] ["ABC"] 0 1 0
      [⟨0, some 100⟩, ⟨1, some 110⟩] ⟨0, some 100⟩ 100
      (by decide) (by decide) (by decide) (by decide) (by decide) (by decide)
  exact ⟨ds, hds, hmem ⟨1, some 110⟩ (by decide) 110 rfl⟩

/-- C2 (code behaviour at the failing input): with first in-window price `0`
the baseline is `0`, and the code computes `((close - 0) / 0) * 100`,
retaining a `NaN` point (for close `0`) and a `+Infinity` point (for close
`5`) in the dataset — it does not treat them as absent. -/
theorem chartData_zero_baseline_nonfinite :
    chartData [[⟨0, some 0⟩, ⟨1, some 5⟩]] ["ABC"] 0 1 =
      ⟨[], [⟨some "ABC",
        [⟨0, some JSNum.nan, some 0⟩, ⟨1, some JSNum.posInf, some 5⟩],
        "y-percent"⟩]⟩ := by decide

/-- C3: the `USDJPY=X` series is plotted raw (`value = price` for every
in-window present point, independent of any baseline), on the
`y-exchange` axis, while every non-passthrough series sits on the distinct
`y-percent` axis. -/
theorem chartData_passthrough
    (data : List (List StockDataPoint)) (symbols : List String)
    (st en : ℤ) (j : ℕ) (sd : List StockDataPoint)
    (hj : data[j]? = some sd)
    (hsym : symbols[j]? = some "USDJPY=X") :
    ∃ ds, (chartData data symbols st en).datasets[j]? = some ds ∧
      ds.yAxisID = "y-exchange" ∧
      (∀ p ∈ validData st en sd, ∀ c : ℚ, p.close = some c →
        ({ x := p.date, y := some (.fin c), originalY := some c } :
          ChartPoint) ∈ ds.data) ∧
      (∀ (k : ℕ) (ds' : ChartDataset), symbols[k]? ≠ some "USDJPY=X" →
        (chartData data symbols st en).datasets[k]? = some ds' →
        ds'.yAxisID = "y-percent") ∧
      ("y-exchange" : String) ≠ "y-percent" := by
  have hs : symbols ≠ [] := ne_nil_of_getElem?_eq_some hsym
  have hd : data ≠ [] := ne_nil_of_getElem?_eq_some hj
  refine ⟨mkDataset symbols st en j sd, ?_, ?_, ?_, ?_, by decide⟩
  · rw [chartData_datasets_getElem? j hd hs, hj]
    rfl
  · rw [mkDataset_yAxisID, if_pos hsym]
  · intro p hp c hc
    rw [mkDataset_data]
    have hmk : mkPoint (decide (symbols[j]? = some "USDJPY=X"))
        (if symbols[j]? = some "USDJPY=X" then 1
          else (((validData st en sd).head?.bind (·.close)).getD 0)) p =
        { x := p.date, y := some (.fin c), originalY := some c } := by
      simp only [mkPoint, hc, decide_eq_true_eq]
      rw [if_pos hsym]
    exact hmk ▸ List.mem_map_of_mem _ hp
  · intro k ds' hk hds'
    rw [chartData_datasets_getElem? k hd hs] at hds'
    obtain ⟨sdk, _, rfl⟩ := Option.map_eq_some'.mp hds'
    rw [mkDataset_yAxisID, if_neg hk]

/-- C3 witness: `USDJPY=X` prices `[150, 151]` over window `[0, 1]` are
plotted raw on `y-exchange`; a sibling `ABC` dataset sits on `y-percent`. -/
theorem chartData_passthrough_witness :
    ∃ ds, (chartData [[⟨0, some 100⟩], [⟨0, some 150⟩, ⟨1, some 151⟩]]
        ["ABC", "USDJPY=X"] 0 1).datasets[1]? = some ds ∧
      ds.yAxisID = "y-exchange" ∧
      ({ x := 1, y := some (.fin 151), originalY := some 151 } :
        ChartPoint) ∈ ds.data ∧
      ∀ ds' : ChartDataset,
        (chartData [[⟨0, some 100⟩], [⟨0, some 150⟩, ⟨1, some 151⟩]]
          ["ABC", "USDJPY=X"] 0 1).datasets[0]? = some ds' →
        ds'.yAxisID = "y-percent" := by
  obtain ⟨ds, hds, haxis, hmem, hothers, _⟩ :=
    chartData_passthrough
      [[⟨0, some 100⟩], [⟨0, some 150⟩, ⟨1, some 151⟩]] ["ABC", "USDJPY=X"]
      0 1 1 [⟨0, some 150⟩, ⟨1, some 151⟩] (by decide) (by decide)
  exact ⟨ds, hds, haxis, hmem ⟨1, some 151⟩ (by decide) 151 rfl,
    fun ds' h => hothers 0 ds' (by decide) h⟩

/-- C4: for every date window with `start ≤ end`, every point of every
dataset produced by `chartData` has its timestamp within
`[start, end]` inclusive. -/
theorem chartData_window_clamp
    (data : List (List StockDataPoint)) (symbols : List String)
    (st en : ℤ) (_hse : st ≤ en) :
    ∀ ds ∈ (chartData data symbols st en).datasets,
      ∀ pt ∈ ds.data, st ≤ pt.x ∧ pt.x ≤ en := by
  have key : ∀ (i : ℕ) (dl : List (List StockDataPoint)),
      ∀ ds ∈ chartDatasets symbols st en i dl,
        ∀ pt ∈ ds.data, st ≤ pt.x ∧ pt.x ≤ en := by
    intro i dl
    induction dl generalizing i with
    | nil => simp [chartDatasets]
    | cons sd rest ih =>
      intro ds hds pt hpt
      rw [chartDatasets, List.mem_cons] at hds
      rcases hds with rfl | hds
      · rw [mkDataset_data] at hpt
        obtain ⟨p, hp, rfl⟩ := List.mem_map.mp hpt
        have := mem_validData.mp hp
        exact ⟨this.2.2.1, this.2.2.2⟩
      · exact ih (i + 1) ds hds pt hpt
  intro ds hds
  by_cases h : data = [] ∨ symbols = []
  · simp [chartData, h] at hds
  · simp only [chartData, if_neg h] at hds
    exact key 0 data ds hds

/-- C4 witness: with window `[0, 1]`, the plotted point at timestamp `0`
of the concrete dataset lies within the window. -/
theorem chartData_window_clamp_witness :
    (0 : ℤ) ≤ (ChartPoint.mk 0 (some (.fin 2)) (some 2)).x ∧
      (ChartPoint.mk 0 (some (.fin 2)) (some 2)).x ≤ 1 :=
  chartData_window_clamp [[⟨-3, some 1⟩, ⟨0, some 2⟩, ⟨7, some 3⟩]]
    ["USDJPY=X"] 0 1 (by decide)
    (mkDataset ["USDJPY=X"] 0 1 0 [⟨-3, some 1⟩, ⟨0, some 2⟩, ⟨7, some 3⟩])
    (by decide) ⟨0, some (.fin 2), some 2⟩ (by decide)

/-- C5: a raw point whose price is absent is dropped entirely: the plotted
data of each dataset consists of exactly the in-window present points of
the corresponding raw series, in their original order, with their original
timestamps and prices (no interpolation). -/
theorem chartData_drops_absent
    (data : List (List StockDataPoint)) (symbols : List String)
    (st en : ℤ) (j : ℕ) (sd : List StockDataPoint)
    (hj : data[j]? = some sd) (hs : symbols ≠ []) :
    ∃ ds, (chartData data symbols st en).datasets[j]? = some ds ∧
      ds.data.map (fun pt => (pt.x, pt.originalY)) =
        (validData st en sd).map (fun p => (p.date, p.close)) := by
  refine ⟨mkDataset symbols st en j sd, ?_, ?_⟩
  · rw [chartData_datasets_getElem? j (ne_nil_of_getElem?_eq_some hj) hs, hj]
    rfl
  · rw [mkDataset_data, List.map_map]
    rfl

/-- C5 witness: the absent-priced day 1 is dropped; days 0 and 2 survive in
order with their original prices. -/
theorem chartData_drops_absent_witness :
    ∃ ds, (chartData [[⟨0, some 100⟩, ⟨1, none⟩, ⟨2, some 121⟩]] ["ABC"]
        0 2).datasets[0]? = some ds ∧
      ds.data.map (fun pt => (pt.x, pt.originalY)) =
        (validData 0 2 [⟨0, some 100⟩, ⟨1, none⟩, ⟨2, some 121⟩]).map
          (fun p => (p.date, p.close)) :=
  chartData_drops_absent [[⟨0, some 100⟩, ⟨1, none⟩, ⟨2, some 121⟩]] ["ABC"]
    0 2 0 [⟨0, some 100⟩, ⟨1, none⟩, ⟨2, some 121⟩] (by decide) (by decide)

/-- C6 counterexample: a series whose only point lies outside the window
becomes empty after filtering, yet the renderer's guard (which tests only
the raw `data`/`symbols` arrays) does not show the "no data" message — the
chart is rendered with a non-empty dataset list whose every dataset has
empty plotted data. -/
theorem chartData_filtered_empty_no_message :
    (chartData [[⟨5, some 100⟩]] ["ABC"] 0 1).datasets.length = 1 ∧
    ((chartData [[⟨5, some 100⟩]] ["ABC"] 0 1).datasets.all
      fun ds => ds.data.isEmpty) = true ∧
    showsNoData [[⟨5, some 100⟩]] ["ABC"] = false := by decide

/-- C6 amended: an empty symbol list (or empty raw-data list) yields the
empty dataset without error, and the renderer's empty-state message is
shown exactly when the raw `data` list or the `symbols` list is empty —
series that become empty only after window filtering do not trigger it. -/
theorem chartData_empty_state
    (data : List (List StockDataPoint)) (symbols : List String)
    (st en : ℤ) :
    chartData data [] st en = ⟨[], []⟩ ∧
    chartData [] symbols st en = ⟨[], []⟩ ∧
    (showsNoData data symbols = true ↔ data = [] ∨ symbols = []) := by
  refine ⟨by simp [chartData], by simp [chartData], ?_⟩
  simp [showsNoData, List.isEmpty_iff]

/-- C7 counterexample: two raw series against a single symbol — a count
mismatch — still silently produce a two-dataset chart; the series beyond
the symbol list gets an absent label and is percent-transformed against
its own first price. -/
theorem chartData_mismatch_silent :
    (chartData [[⟨0, some 1⟩], [⟨0, some 2⟩]] ["ABC"] 0 0).datasets.length
      = 2 ∧
    ((chartData [[⟨0, some 1⟩], [⟨0, some 2⟩]] ["ABC"] 0 0).datasets[1]?.map
      fun ds => (ds.label, ds.yAxisID, ds.data.length)) =
      some (none, "y-percent", 1) := by decide

/-- C7 amended: the core performs no shape validation and never reports an
error: whenever the guard passes (both inputs non-empty) it produces
exactly one dataset per raw series, regardless of whether the series count
matches the symbol count; a series with no matching symbol gets an absent
label. -/
theorem chartData_no_shape_check
    (data : List (List StockDataPoint)) (symbols : List String)
    (st en : ℤ) (h1 : data ≠ []) (h2 : symbols ≠ []) :
    (chartData data symbols st en).datasets.length = data.length ∧
    ∀ (j : ℕ) (ds : ChartDataset), symbols.length ≤ j →
      (chartData data symbols st en).datasets[j]? = some ds →
      ds.label = none := by
  have h : ¬(data = [] ∨ symbols = []) := by simp [h1, h2]
  constructor
  · simp [chartData, h, chartDatasets_length]
  · intro j ds hlen hds
    rw [chartData_datasets_getElem? j h1 h2] at hds
    obtain ⟨sdj, _, rfl⟩ := Option.map_eq_some'.mp hds
    have hnone : symbols[j]? = none := by
      exact List.getElem?_eq_none hlen
    simp [mkDataset, hnone]

/-- C7 amended witness: two series against one symbol yield two datasets,
the second unlabelled. -/
theorem chartData_no_shape_check_witness :
    (chartData [[⟨0, some 1⟩], [⟨0, some 2⟩]] ["ABC"] 0 0).datasets.length
      = 2 ∧
    ∀ (j : ℕ) (ds : ChartDataset), (1 : ℕ) ≤ j →
      (chartData [[⟨0, some 1⟩], [⟨0, some 2⟩]] ["ABC"] 0 0).datasets[j]? =
        some ds →
      ds.label = none := by
  have h := chartData_no_shape_check [[⟨0, some 1⟩], [⟨0, some 2⟩]] ["ABC"]
    0 0 (by decide) (by decide)
  exact ⟨h.1.trans (by decide), fun j ds hj hds => h.2 j ds hj hds⟩

/-- C8: the `options` configuration bounds both the displayed x-scale and
the zoom limits to the window timestamps with a minimum zoom span of one
calendar day (86,400,000 ms); consequently (zoom-plugin clamping modelled
from the spec) any requested x-range is clamped inside the window with
span at least one day. -/
theorem options_axis_zoom_clamp (st en : ℤ) (h : st + 86400000 ≤ en) :
    (options st en).xScale.min = st ∧ (options st en).xScale.max = en ∧
    (options st en).zoomLimitsX.min = st ∧
    (options st en).zoomLimitsX.max = en ∧
    (options st en).zoomLimitsX.minRange = 86400000 ∧
    ∀ a b : ℤ,
      st ≤ (clampZoom (options st en).zoomLimitsX a b).1 ∧
      (clampZoom (options st en).zoomLimitsX a b).2 ≤ en ∧
      86400000 ≤ (clampZoom (options st en).zoomLimitsX a b).2 -
        (clampZoom (options st en).zoomLimitsX a b).1 := by
  refine ⟨rfl, rfl, rfl, rfl, rfl, ?_⟩
  intro a b
  simp only [clampZoom, options]
  omega

/-- C8 witness: window `[0, 2 days]`; the request `[-5, 3]` (span below one
day, start before the window) is clamped inside the window with a one-day
span. -/
theorem options_axis_zoom_clamp_witness :
    (0 : ℤ) ≤ (clampZoom (options 0 172800000).zoomLimitsX (-5) 3).1 ∧
    (clampZoom (options 0 172800000).zoomLimitsX (-5) 3).2 ≤ 172800000 ∧
    (86400000 : ℤ) ≤ (clampZoom (options 0 172800000).zoomLimitsX (-5) 3).2 -
      (clampZoom (options 0 172800000).zoomLimitsX (-5) 3).1 :=
  (options_axis_zoom_clamp 0 172800000 (by decide)).2.2.2.2.2 (-5) 3

/-- C9: the chart-dataset derivation is a pure function of its inputs — it
is expressed here as a total function on immutable values (the source uses
only non-mutating `map`/`filter`), so any two invocations on structurally
equal inputs produce structurally equal outputs. -/
theorem chartData_deterministic
    (d₁ d₂ : List (List StockDataPoint)) (s₁ s₂ : List String)
    (st₁ st₂ en₁ en₂ : ℤ)
    (hd : d₁ = d₂) (hs : s₁ = s₂) (hst : st₁ = st₂) (hen : en₁ = en₂) :
    chartData d₁ s₁ st₁ en₁ = chartData d₂ s₂ st₂ en₂ := by
  subst hd hs hst hen
  rfl

/-- C9 witness: two invocations on equal concrete inputs agree. -/
theorem chartData_deterministic_witness :
    chartData [[⟨0, some 100⟩]] ["ABC"] 0 1 =
      chartData [[⟨0, some 100⟩]] ["ABC"] 0 1 :=
  chartData_deterministic [[⟨0, some 100⟩]] [[⟨0, some 100⟩]] ["ABC"]
    ["ABC"] 0 0 1 1 rfl rfl rfl rfl

end StockChart

namespace yahooFinance

lemma alignSeries_map_date (dates : List String)
    (r : List StockDataPoint) :
    (alignSeries dates r).map (·.date) = dates := by
  simp only [alignSeries, List.map_map]
  exact List.map_id' dates

/-- C10: `fetchStockData` returns one series per requested symbol, in
symbol order; every returned series carries exactly the sorted
(strictly-ascending, duplicate-free) union of all fetched dates as its
date sequence — hence all series have equal length and identical dates —
and a date on which a symbol had no fetched point gets `close = none`. -/
theorem fetchStockData_aligned (f : String → List StockDataPoint)
    (symbols : List String) :
    (fetchStockData f symbols).length = symbols.length ∧
    (∀ s ∈ fetchStockData f symbols,
      s.map (·.date) = sortedAllDates (symbols.map f)) ∧
    (sortedAllDates (symbols.map f)).Sorted (· < ·) ∧
    (∀ d : String, d ∈ sortedAllDates (symbols.map f) ↔
      ∃ ser ∈ symbols.map f, ∃ p ∈ ser, p.date = d) ∧
    (∀ (j : ℕ) (sym : String), symbols[j]? = some sym →
      (fetchStockData f symbols)[j]? =
        some (alignSeries (sortedAllDates (symbols.map f)) (f sym))) ∧
    (∀ sym : String,
      ∀ p ∈ alignSeries (sortedAllDates (symbols.map f)) (f sym),
        (∀ q ∈ f sym, q.date ≠ p.date) → p.close = none) := by
  refine ⟨?_, ?_, ?_, ?_, ?_, ?_⟩
  · simp [fetchStockData, fetchStockDataAlign]
  · intro s hs
    simp only [fetchStockData, fetchStockDataAlign, List.mem_map] at hs
    obtain ⟨r, _, rfl⟩ := hs
    exact alignSeries_map_date _ _
  · have hsle : (sortedAllDates (symbols.map f)).Sorted (· ≤ ·) :=
      List.sorted_insertionSort _ _
    have hnd : (sortedAllDates (symbols.map f)).Nodup :=
      (List.perm_insertionSort _ _).nodup_iff.mpr (List.nodup_dedup _)
    exact hsle.lt_of_le hnd
  · intro d
    rw [sortedAllDates, (List.perm_insertionSort _ _).mem_iff,
      List.mem_dedup]
    simp [List.mem_flatMap, List.mem_map]
  · intro j sym hj
    simp [fetchStockData, fetchStockDataAlign, List.getElem?_map, hj]
  · intro sym p hp hnone
    obtain ⟨d, _, rfl⟩ := List.mem_map.mp hp
    simp only [dataMapGet]
    have hfind : (f sym).reverse.find? (fun q => q.date == d) = none := by
      rw [List.find?_eq_none]
      intro q hq
      simpa using hnone q (List.mem_reverse.mp hq)
    rw [hfind]

/-- C10 witness: a single symbol whose fetch returns one dated point; the
returned list's first entry is that series aligned onto the sorted date
union. -/
theorem fetchStockData_aligned_witness :
    (fetchStockData (fun _ => [⟨"2024-01-02", some 3⟩]) ["A"])[0]? =
      some (alignSeries
        (sortedAllDates (["A"].map (fun _ => [⟨"2024-01-02", some 3⟩])))
        ((fun _ => [(⟨"2024-01-02", some 3⟩ : StockDataPoint)]) "A")) :=
  (fetchStockData_aligned (fun _ => [⟨"2024-01-02", some 3⟩])
    ["A"]).2.2.2.2.1 0 "A" rfl

end yahooFinance
